import Mathlib

/-!
Shallow embedding of the assessment-orchestrator repository.

The repository has three revisions of one script:
  * `src/index.js` (the "index" revision): crawl posts `urls: [url]`,
    no try/catch around crawl, writes in order report / audit / status.
  * `src/unnamed/part_000`, first chunk (the "early" revision): crawl posts
    `url`, no try/catch, writes in order report / status / audit.
  * `src/unnamed/part_000`, second chunk (the "late" revision): crawl is
    wrapped in try/catch and returns sentinel strings on failure, the
    assistant/write phase is wrapped in a top-level try/catch, writes in
    order report / audit / status.

JavaScript values flowing through the crawl responses are modelled by the
`Json` inductive below; machinery such as axios and supabase is modelled by
an explicit environment (`Env`) of responses, and each cycle is a function
from that environment to the list of externally visible effects it performs.
-/

namespace AssessOrch

/-- Model of a JavaScript/JSON value as seen in a crawl-service response. -/
inductive Json where
  | null
  | bool (b : Bool)
  | num (n : Int)
  | str (s : String)
  | arr (xs : List Json)
  | obj (fields : List (String × Json))

/-- Property lookup on an object; any other receiver yields `undefined`
(`none`).  Mirrors `res.data.pages` style accesses in the source. -/
def findField : List (String × Json) → String → Option Json
  | [], _ => none
  | (k, v) :: fs, key => if k = key then some v else findField fs key

/-- Property access `j[key]`.  Objects look the key up; everything else
(numbers, strings, arrays, booleans) has no such property, so the access
evaluates to `undefined` (`none`).  Access on `null` is handled at each call
site, since in JavaScript it throws rather than yielding `undefined`. -/
def Json.getField : Json → String → Option Json
  | .obj fs, key => findField fs key
  | _, _ => none

/-- JavaScript truthiness of a possibly-`undefined` value, as used by the
`||` chains in the late-revision `crawl`. -/
def truthy : Option Json → Bool
  | none => false
  | some .null => false
  | some (.bool b) => b
  | some (.num n) => n != 0
  | some (.str s) => s != ""
  | some (.arr _) => true
  | some (.obj _) => true

/-- Evaluation of `a || b` on JavaScript values: the first operand when
truthy, else the second. -/
def jsOr (a b : Option Json) : Option Json :=
  if truthy a then a else b

/-- Element access `data[0]` of `res.data?.[0]?.pages`: first element of an
array, property "0" of an object, `undefined` otherwise. -/
def jsIndex0 : Json → Option Json
  | .arr xs => xs.head?
  | .obj fs => findField fs "0"
  | _ => none

/-- Evaluation of `res.data?.[0]?.pages` from the late revision: optional
chaining makes access on `null`/`undefined` yield `undefined` instead of
throwing. -/
def nestedPages (data : Json) : Option Json :=
  match jsIndex0 data with
  | none => none
  | some .null => none
  | some e => e.getField "pages"

/-- The `pages` selection of the late revision:
`res.data.pages || res.data?.[0]?.pages || []`.  On a null response body
the very first property access throws (`.error`), since it is not behind
optional chaining; otherwise the chain yields its first truthy operand,
falling through to the empty-array default when none is truthy. -/
def pagesOf (data : Json) : Except Unit Json :=
  match data with
  | .null => .error ()
  | _ =>
    .ok (match jsOr (data.getField "pages") (jsOr (nestedPages data) (some (.arr []))) with
      | some v => v
      | none => .arr [])

/-- Whether a value is an array; `Array.isArray(pages)` in the late
revision. -/
def Json.isArr : Json → Bool
  | .arr _ => true
  | _ => false

mutual

/-- How a defined value prints inside a JavaScript template literal:
arrays join their elements with commas, objects print as
"[object Object]". -/
def jsDisplayVal : Json → String
  | .null => "null"
  | .bool true => "true"
  | .bool false => "false"
  | .num n => toString n
  | .str s => s
  | .arr xs => String.intercalate "," (displayElems xs)
  | .obj _ => "[object Object]"

/-- Elements of an array as they print inside `String(array)`: a `null`
element prints as the empty string there. -/
def displayElems : List Json → List String
  | [] => []
  | .null :: xs => "" :: displayElems xs
  | x :: xs => jsDisplayVal x :: displayElems xs

end

/-- How a possibly-`undefined` value prints inside a template literal. -/
def jsDisplay : Option Json → String
  | none => "undefined"
  | some v => jsDisplayVal v

/-- One page formatted by the `.map` callback of every revision of `crawl`:
the template literal is a string of the shape "## title (url)\ntext".
Property access on a `null` array element throws, which the model reports
as `.error ()`. -/
def jsonFormatPage (p : Json) : Except Unit String :=
  match p with
  | .null => .error ()
  | p => .ok ("## " ++ jsDisplay (p.getField "title") ++ " (" ++
      jsDisplay (p.getField "url") ++ ")\n" ++ jsDisplay (p.getField "text"))

/-- Model of `Array.prototype.map` under a callback that can throw: apply
the callback left to right, propagating the first exception. -/
def mapThrow (f : α → Except Unit β) : List α → Except Unit (List β)
  | [] => .ok []
  | x :: xs =>
    match f x with
    | .error e => .error e
    | .ok y => (mapThrow f xs).map (fun ys => y :: ys)

/-- The crawl handler shared by the index and early revisions:
`res.data.pages.map(p => ...).join('\n\n')` with no try/catch, so a
transport failure, a missing or non-array `pages`, and a throwing callback
all abort the computation (`.error`). -/
def crawlStrict (resp : Except Unit Json) : Except Unit String :=
  match resp with
  | .error e => .error e
  | .ok data =>
    match data.getField "pages" with
    | some (.arr ps) => (mapThrow jsonFormatPage ps).map (String.intercalate "\n\n")
    | _ => .error ()

/-- The body of the late-revision `crawl` up to its catch handler: select
`pages` by the `||` chain (which throws on a null response body), return
the shape sentinel when the selected value is not an array, else map and
join (where the mapping itself can still throw). -/
def crawlLateCore (resp : Except Unit Json) : Except Unit String :=
  match resp with
  | .error e => .error e
  | .ok data =>
    match pagesOf data with
    | .error e => .error e
    | .ok (.arr ps) => (mapThrow jsonFormatPage ps).map (String.intercalate "\n\n")
    | .ok _ => .ok "Crawl failed: no structured page content returned."

/-- The late-revision `crawl`: its catch handler converts every exception
(transport failure or a throw inside the try) into the exception
sentinel, so the function always returns a string. -/
def crawlLate (resp : Except Unit Json) : String :=
  match crawlLateCore resp with
  | .ok s => s
  | .error _ => "Crawl failed: exception thrown."

/-- A page as produced by a well-formed crawl response. -/
structure CrawledPage where
  title : String
  url : String
  text : String

/-- A well-formed page encoded as the JSON object the crawl service sends. -/
def encodePage (p : CrawledPage) : Json :=
  .obj [("title", .str p.title), ("url", .str p.url), ("text", .str p.text)]

/-- "## title (url)\ntext", the per-page block of the crawl output. -/
def formatPage (p : CrawledPage) : String :=
  "## " ++ p.title ++ " (" ++ p.url ++ ")\n" ++ p.text

/-- The crawl output for a list of well-formed pages: the per-page blocks
joined by blank lines. -/
def formatPages (ps : List CrawledPage) : String :=
  String.intercalate "\n\n" (ps.map formatPage)

/-- One hex digit, lower case, for JSON string escapes of control
characters. -/
def hexDigit : Nat → String
  | 10 => "a"
  | 11 => "b"
  | 12 => "c"
  | 13 => "d"
  | 14 => "e"
  | 15 => "f"
  | n => toString n

/-- JSON escaping of a single character, as `JSON.stringify` performs it. -/
def escapeChar (c : Char) : String :=
  if c = '"' then "\\\""
  else if c = '\\' then "\\\\"
  else if c = '\n' then "\\n"
  else if c = '\r' then "\\r"
  else if c = '\t' then "\\t"
  else if c = '\x08' then "\\b"
  else if c = '\x0c' then "\\f"
  else if c.toNat < 32 then "\\u00" ++ hexDigit (c.toNat / 16) ++ hexDigit (c.toNat % 16)
  else String.singleton c

/-- JSON escaping of a string body. -/
def escapeString (s : String) : String :=
  String.join (s.data.map escapeChar)

mutual

/-- Model of `JSON.stringify` on the modelled JavaScript values, used by
the prompt template on `trigger.supplemental_links`. -/
def Json.stringify : Json → String
  | .null => "null"
  | .bool true => "true"
  | .bool false => "false"
  | .num n => toString n
  | .str s => "\"" ++ escapeString s ++ "\""
  | .arr xs => "[" ++ String.intercalate "," (stringifyElems xs) ++ "]"
  | .obj fs => "\x7b" ++ String.intercalate "," (stringifyFields fs) ++ "\x7d"

/-- Serialized elements of a JSON array. -/
def stringifyElems : List Json → List String
  | [] => []
  | x :: xs => Json.stringify x :: stringifyElems xs

/-- Serialized key/value pairs of a JSON object. -/
def stringifyFields : List (String × Json) → List String
  | [] => []
  | (k, v) :: fs =>
    ("\"" ++ escapeString k ++ "\":" ++ Json.stringify v) :: stringifyFields fs

end

/-- A row of the `CompanyAssessmentTrigger` table. -/
structure Trigger where
  id : Nat
  status : String
  investor_name : String
  investor_site : String
  company_name : String
  company_url : String
  context : String
  supplemental_links : Json

/-- A row inserted into the `CompanyAssessments` table. -/
structure AssessmentReport where
  investor_name : String
  investor_site : String
  company_name : String
  company_url : String
  context : String
  report_json : String
deriving DecidableEq

/-- A row inserted into the `AuditLogs` table. -/
structure AuditLogEntry where
  action : String
  source_url : String
  confidence_score : Nat
  details : String
deriving DecidableEq

/-- How the target URL appears in the crawl request body: the early
revision sends a single `url` field, the index and late revisions send a
one-element `urls` array. -/
inductive CrawlTarget where
  | single (url : String)
  | list (urls : List String)
deriving DecidableEq

/-- The JSON body posted to the crawl service. -/
structure CrawlBody where
  target : CrawlTarget
  maxPages : Nat
  depth : Nat
  crawlJs : Bool
  htmlOnly : Bool
deriving DecidableEq

/-- Request body of `crawl` in `src/index.js`:
`{ urls: [url], maxPages: 20, depth: 2, crawlJs: true, htmlOnly: false }`. -/
def crawlBodyIndex (url : String) : CrawlBody :=
  ⟨.list [url], 20, 2, true, false⟩

/-- Request body of `crawl` in the early revision:
`{ url, maxPages: 20, depth: 2, crawlJs: true, htmlOnly: false }`. -/
def crawlBodyEarly (url : String) : CrawlBody :=
  ⟨.single url, 20, 2, true, false⟩

/-- Request body of `crawl` in the late revision:
`{ urls: [url], maxPages: 20, depth: 2, crawlJs: true, htmlOnly: false }`. -/
def crawlBodyLate (url : String) : CrawlBody :=
  ⟨.list [url], 20, 2, true, false⟩

/-- The externally visible effects a cycle can perform, in the order it
performs them. -/
inductive Effect where
  | crawlRequest (body : CrawlBody)
  | threadCreate
  | messageCreate (content : String)
  | runCreate
  | runRetrieve
  | insertReport (r : AssessmentReport)
  | insertAudit (a : AuditLogEntry)
  | updateTriggerStatus (id : Nat) (status : String)
deriving DecidableEq

/-- The prompt template shared verbatim by all three revisions. -/
def buildPrompt (t : Trigger) (investorText companyText : String) : String :=
  "\nInvestor Profile Input:\n- PE/VC Firm Name: " ++ t.investor_name ++
  "\n- Website: " ++ t.investor_site ++
  "\n- Supplemental Links: " ++ Json.stringify t.supplemental_links ++
  "\n\nTarget Company Input:\n- Company Name: " ++ t.company_name ++
  "\n- Website: " ++ t.company_url ++
  "\n- Assessment Context: " ++ t.context ++
  "\n\nExtracted Content:\n" ++ "## Investor Pages\n" ++ investorText ++
  "\n\n" ++ "## Company Pages\n" ++ companyText ++ "\n"

/-- Result of the supabase select on `CompanyAssessmentTrigger`: either an
error (in which case `data` is null) or the returned rows (null or a
list). -/
inductive QueryResult where
  | err (message : String)
  | ok (data : Option (List Trigger))

/-- The environment a cycle runs against: the store response for the
trigger select, the crawl-service transport result per URL, the run status
returned by the i-th poll, the text of the newest thread message after
completion, and whether each of the three writes throws. -/
structure Env where
  query : QueryResult
  crawlResp : String → Except Unit Json
  statuses : Nat → String
  assistantText : String
  reportInsertThrows : Bool
  auditInsertThrows : Bool
  statusUpdateThrows : Bool

/-- The `while (true)` status-poll loop, from the i-th poll on, with fuel
bounding how many polls the model may observe: `some j` when the j-th poll
(absolutely indexed) returns "completed" within the fuel, `none` when the
loop is still spinning when the fuel runs out. -/
def pollLoopFrom : Nat → (Nat → String) → Nat → Option Nat
  | 0, _, _ => none
  | fuel + 1, statuses, i =>
    if statuses i = "completed" then some i
    else pollLoopFrom fuel statuses (i + 1)

/-- The status-poll loop started at the first poll. -/
def pollLoop (fuel : Nat) (statuses : Nat → String) : Option Nat :=
  pollLoopFrom fuel statuses 0

/-- The `CompanyAssessments` row every revision inserts. -/
def mkReport (t : Trigger) (text : String) : AssessmentReport :=
  ⟨t.investor_name, t.investor_site, t.company_name, t.company_url, t.context, text⟩

/-- The `AuditLogs` row `src/index.js` inserts. -/
def mkAuditIndex (_t : Trigger) : AuditLogEntry :=
  ⟨"Assessment Complete", _t.company_url, 90, "Report stored"⟩

/-- The `AuditLogs` row the early revision inserts. -/
def mkAuditEarly (_t : Trigger) : AuditLogEntry :=
  ⟨"Assessment Complete", _t.company_url, 90, "Report stored"⟩

/-- The `AuditLogs` row the late revision inserts. -/
def mkAuditLate (_t : Trigger) : AuditLogEntry :=
  ⟨"Assessment Complete", _t.company_url, 90, "Assessment stored successfully"⟩

/-- One cycle of `run` in `src/index.js` as the list of effects it
performs: abort on query error, return on no triggers, crawl both sites
(uncaught crawl exceptions end the cycle), build the prompt, drive the
assistant run to completion, then insert the report, insert the audit row
and update the trigger status, a throwing write ending the cycle.  `none`
means the status-poll loop was still spinning when the fuel ran out. -/
def runIndex (fuel : Nat) (env : Env) : Option (List Effect) :=
  match env.query with
  | .err _ => some []
  | .ok none => some []
  | .ok (some []) => some []
  | .ok (some (trigger :: _)) =>
    match crawlStrict (env.crawlResp trigger.investor_site) with
    | .error _ => some [.crawlRequest (crawlBodyIndex trigger.investor_site)]
    | .ok investorText =>
      match crawlStrict (env.crawlResp trigger.company_url) with
      | .error _ =>
        some [.crawlRequest (crawlBodyIndex trigger.investor_site),
              .crawlRequest (crawlBodyIndex trigger.company_url)]
      | .ok companyText =>
        match pollLoop fuel env.statuses with
        | none => none
        | some k =>
          some ([.crawlRequest (crawlBodyIndex trigger.investor_site),
                 .crawlRequest (crawlBodyIndex trigger.company_url),
                 .threadCreate,
                 .messageCreate (buildPrompt trigger investorText companyText),
                 .runCreate] ++
            List.replicate (k + 1) .runRetrieve ++
            (if env.reportInsertThrows then []
             else if env.auditInsertThrows then
               [.insertReport (mkReport trigger env.assistantText)]
             else if env.statusUpdateThrows then
               [.insertReport (mkReport trigger env.assistantText),
                .insertAudit (mkAuditIndex trigger)]
             else
               [.insertReport (mkReport trigger env.assistantText),
                .insertAudit (mkAuditIndex trigger),
                .updateTriggerStatus trigger.id "complete"]))

/-- One cycle of `run` in the early revision.  It reads only `data` from
the select (on a query error `data` is null, so the no-trigger guard
returns), and its write order is report insert, then status update, then
audit insert. -/
def runEarly (fuel : Nat) (env : Env) : Option (List Effect) :=
  match env.query with
  | .err _ => some []
  | .ok none => some []
  | .ok (some []) => some []
  | .ok (some (trigger :: _)) =>
    match crawlStrict (env.crawlResp trigger.investor_site) with
    | .error _ => some [.crawlRequest (crawlBodyEarly trigger.investor_site)]
    | .ok investorText =>
      match crawlStrict (env.crawlResp trigger.company_url) with
      | .error _ =>
        some [.crawlRequest (crawlBodyEarly trigger.investor_site),
              .crawlRequest (crawlBodyEarly trigger.company_url)]
      | .ok companyText =>
        match pollLoop fuel env.statuses with
        | none => none
        | some k =>
          some ([.crawlRequest (crawlBodyEarly trigger.investor_site),
                 .crawlRequest (crawlBodyEarly trigger.company_url),
                 .threadCreate,
                 .messageCreate (buildPrompt trigger investorText companyText),
                 .runCreate] ++
            List.replicate (k + 1) .runRetrieve ++
            (if env.reportInsertThrows then []
             else if env.statusUpdateThrows then
               [.insertReport (mkReport trigger env.assistantText)]
             else if env.auditInsertThrows then
               [.insertReport (mkReport trigger env.assistantText),
                .updateTriggerStatus trigger.id "complete"]
             else
               [.insertReport (mkReport trigger env.assistantText),
                .updateTriggerStatus trigger.id "complete",
                .insertAudit (mkAuditEarly trigger)]))

/-- One cycle of `run` in the late revision: `crawl` never throws (it
returns sentinel strings on failure), the assistant/write phase sits in a
try/catch that only logs, and the write order is report insert, audit
insert, status update. -/
def runLate (fuel : Nat) (env : Env) : Option (List Effect) :=
  match env.query with
  | .err _ => some []
  | .ok none => some []
  | .ok (some []) => some []
  | .ok (some (trigger :: _)) =>
    match pollLoop fuel env.statuses with
    | none => none
    | some k =>
      some ([.crawlRequest (crawlBodyLate trigger.investor_site),
             .crawlRequest (crawlBodyLate trigger.company_url),
             .threadCreate,
             .messageCreate (buildPrompt trigger
               (crawlLate (env.crawlResp trigger.investor_site))
               (crawlLate (env.crawlResp trigger.company_url))),
             .runCreate] ++
        List.replicate (k + 1) .runRetrieve ++
        (if env.reportInsertThrows then []
         else if env.auditInsertThrows then
           [.insertReport (mkReport trigger env.assistantText)]
         else if env.statusUpdateThrows then
           [.insertReport (mkReport trigger env.assistantText),
            .insertAudit (mkAuditLate trigger)]
         else
           [.insertReport (mkReport trigger env.assistantText),
            .insertAudit (mkAuditLate trigger),
            .updateTriggerStatus trigger.id "complete"]))

/-- The store the cycle reads and writes: the trigger table and the two
insert-only tables. -/
structure StoreState where
  triggers : List Trigger
  reports : List AssessmentReport
  audits : List AuditLogEntry

/-- How one effect changes the store.  Only the three writes change it;
the status update rewrites the status of every trigger row whose id equals
the given id, as the update filtered by id does. -/
def applyEffect (s : StoreState) : Effect → StoreState
  | .insertReport r => { s with reports := s.reports ++ [r] }
  | .insertAudit a => { s with audits := s.audits ++ [a] }
  | .updateTriggerStatus i st =>
    { s with triggers := s.triggers.map fun t =>
        if t.id = i then { t with status := st } else t }
  | _ => s

/-- The store after a list of effects. -/
def applyEffects (s : StoreState) (tr : List Effect) : StoreState :=
  tr.foldl applyEffect s

/-- The select every revision issues against the store: all rows whose
status equals "queued", limited to one, with the store returning rows in
table order. -/
def selectQueued (s : StoreState) : List Trigger :=
  (s.triggers.filter fun t => t.status == "queued").take 1

/-- Classification of the write effects, used to state write order. -/
inductive WriteKind where
  | report
  | audit
  | status
deriving DecidableEq

/-- The write an effect performs, if any. -/
def writeKind : Effect → Option WriteKind
  | .insertReport _ => some .report
  | .insertAudit _ => some .audit
  | .updateTriggerStatus _ _ => some .status
  | _ => none

/-- The sequence of writes a trace performs, in order. -/
def writeKinds (tr : List Effect) : List WriteKind :=
  tr.filterMap writeKind

/-- Substring containment: s occurs verbatim inside t. -/
def strContains (t s : String) : Prop :=
  ∃ a b : String, t = a ++ s ++ b

/-- The example trigger of the specification, used as concrete input. -/
def tE : Trigger :=
  ⟨1, "queued", "Acme Capital", "https://acme.vc", "Widget Co",
   "https://widget.co", "Series A diligence",
   .arr [.str "https://acme.vc/portfolio"]⟩

/-- A fully successful environment around the example trigger: one queued
trigger, crawl responses with an empty top-level page list, first poll
already completed, no write throws. -/
def envE : Env :=
  ⟨.ok (some [tE]), fun _ => .ok (.obj [("pages", .arr [])]),
   fun _ => "completed", "report text", false, false, false⟩

/-- The environment of `envE`, except that the audit insert throws. -/
def envE7 : Env :=
  ⟨.ok (some [tE]), fun _ => .ok (.obj [("pages", .arr [])]),
   fun _ => "completed", "report text", false, true, false⟩

/-- An environment whose crawl transport fails, around the example
trigger. -/
def envE8 : Env :=
  ⟨.ok (some [tE]), fun _ => .error (),
   fun _ => "completed", "report text", false, false, false⟩

/-- An environment with a store read error. -/
def envE9 : Env :=
  ⟨.err "connection reset", fun _ => .ok (.obj [("pages", .arr [])]),
   fun _ => "completed", "report text", false, false, false⟩

/-- An environment whose select returns zero queued triggers. -/
def envE4 : Env :=
  ⟨.ok (some []), fun _ => .ok (.obj [("pages", .arr [])]),
   fun _ => "completed", "report text", false, false, false⟩

theorem jsonFormatPage_encodePage (p : CrawledPage) :
    jsonFormatPage (encodePage p) = .ok (formatPage p) := rfl

theorem mapThrow_encodePage (ps : List CrawledPage) :
    mapThrow jsonFormatPage (ps.map encodePage) = .ok (ps.map formatPage) := by
  induction ps with
  | nil => rfl
  | cons p ps ih => simp [mapThrow, jsonFormatPage_encodePage, ih, Except.map]

theorem filterMap_writeKind_replicate (n : Nat) :
    List.filterMap writeKind (List.replicate n .runRetrieve) = [] := by
  induction n with
  | zero => rfl
  | succ n ih => simp [List.replicate_succ, writeKind, ih]

theorem foldl_applyEffect_replicate (s : StoreState) (n : Nat) :
    List.foldl applyEffect s (List.replicate n .runRetrieve) = s := by
  induction n with
  | zero => rfl
  | succ n ih => simpa [List.replicate_succ, applyEffect] using ih

/-- C2: a crawl response carrying well-formed pages, either as a top-level
pages array or as a pages array nested under the first element of a
top-level array, is flattened to the page blocks "## title (url)\ntext"
joined by blank lines, and an empty page list flattens to the empty
string.  The late-revision fetcher accepts both shapes; the index-revision
fetcher handles the top-level shape the same way. -/
theorem claim_C2 (ps : List CrawledPage) (rest : List Json) :
    crawlLate (.ok (.obj [("pages", .arr (ps.map encodePage))])) = formatPages ps
    ∧ crawlLate (.ok (.arr (.obj [("pages", .arr (ps.map encodePage))] :: rest))) =
        formatPages ps
    ∧ crawlStrict (.ok (.obj [("pages", .arr (ps.map encodePage))])) =
        .ok (formatPages ps)
    ∧ crawlLate (.ok (.obj [("pages", .arr [])])) = "" := by
  refine ⟨?_, ?_, ?_, rfl⟩
  · simp [crawlLate, crawlLateCore, pagesOf, Json.getField, findField, jsOr, truthy,
      nestedPages, jsIndex0, mapThrow_encodePage, Except.map, formatPages]
  · simp [crawlLate, crawlLateCore, pagesOf, Json.getField, findField, jsOr, truthy,
      nestedPages, jsIndex0, mapThrow_encodePage, Except.map, formatPages, encodePage]
  · simp [crawlStrict, Json.getField, findField, mapThrow_encodePage, Except.map,
      formatPages]

/-- C3 counterexample: the late-revision fetcher does not return one
fixed sentinel for every malformed shape and every transport failure.
At these concrete inputs: a truthy non-array pages value returns the
shape sentinel while a transport failure returns a different exception
sentinel; an object without pages and an empty top-level array are
malformed (no pages array in the contract sense) yet return the empty
string, which is neither sentinel; and a null response body returns the
exception sentinel, not the shape sentinel. -/
theorem claim_C3_counterexample :
    crawlLate (.ok (.obj [("pages", .str "oops")])) =
      "Crawl failed: no structured page content returned."
    ∧ crawlLate (.error ()) = "Crawl failed: exception thrown."
    ∧ "Crawl failed: no structured page content returned." ≠
        "Crawl failed: exception thrown."
    ∧ crawlLate (.ok (.obj [("foo", .num 1)])) = ""
    ∧ crawlLate (.ok (.arr [])) = ""
    ∧ ("" : String) ≠ "Crawl failed: no structured page content returned."
    ∧ ("" : String) ≠ "Crawl failed: exception thrown."
    ∧ crawlLate (.ok .null) = "Crawl failed: exception thrown." :=
  ⟨rfl, rfl, by decide, rfl, rfl, by decide, by decide, rfl⟩

/-- C3 amended: in the later revision the crawl fetcher never raises; it
returns a fixed sentinel per failure mode rather than one sentinel for
all failures.  A transport failure returns the exception sentinel.  A
response whose pages selection (top-level pages, else first-element
pages, else the empty-array default) is a truthy non-array value returns
the shape sentinel.  A null response body throws inside the try on the
first pages access and so also returns the exception sentinel.  Malformed
shapes where the selection falls through to the empty-array default, such
as an object without a pages field or an empty top-level array, return
the empty string rather than any sentinel. -/
theorem claim_C3 (data : Json) (v : Json)
    (hsel : pagesOf data = .ok v) (hna : v.isArr = false) :
    crawlLate (.ok data) = "Crawl failed: no structured page content returned."
    ∧ crawlLate (.error ()) = "Crawl failed: exception thrown."
    ∧ crawlLate (.ok .null) = "Crawl failed: exception thrown."
    ∧ crawlLate (.ok (.obj [])) = ""
    ∧ crawlLate (.ok (.arr [])) = "" := by
  refine ⟨?_, rfl, rfl, rfl, rfl⟩
  cases v with
  | arr ps => simp [Json.isArr] at hna
  | null => simp [crawlLate, crawlLateCore, hsel]
  | bool b => simp [crawlLate, crawlLateCore, hsel]
  | num n => simp [crawlLate, crawlLateCore, hsel]
  | str s => simp [crawlLate, crawlLateCore, hsel]
  | obj fs => simp [crawlLate, crawlLateCore, hsel]

theorem claim_C3_witness :
    crawlLate (.ok (.obj [("pages", .num 7)])) =
      "Crawl failed: no structured page content returned."
    ∧ crawlLate (.error ()) = "Crawl failed: exception thrown."
    ∧ crawlLate (.ok .null) = "Crawl failed: exception thrown."
    ∧ crawlLate (.ok (.obj [])) = ""
    ∧ crawlLate (.ok (.arr [])) = "" :=
  claim_C3 (.obj [("pages", .num 7)]) (.num 7) rfl rfl

/-- C4: when the store read succeeds and returns zero queued triggers, a
cycle of any revision performs no effect at all, in particular no crawl
request, no assistant call and no store write, and leaves the store
unchanged. -/
theorem claim_C4 (fuel : Nat) (env : Env) (s : StoreState)
    (hq : env.query = .ok (some [])) :
    runIndex fuel env = some [] ∧ runEarly fuel env = some []
    ∧ runLate fuel env = some [] ∧ applyEffects s [] = s := by
  refine ⟨?_, ?_, ?_, rfl⟩ <;> simp [runIndex, runEarly, runLate, hq]

theorem claim_C4_witness :
    runIndex 0 envE4 = some [] ∧ runEarly 0 envE4 = some []
    ∧ runLate 0 envE4 = some [] ∧ applyEffects ⟨[tE], [], []⟩ [] = ⟨[tE], [], []⟩ :=
  claim_C4 0 envE4 ⟨[tE], [], []⟩ rfl

/-- C9: when the store read of queued triggers returns an error, a cycle
of any revision performs no effect at all: no crawl request, no assistant
call, no store write, and no trigger record is modified.  In the index and
late revisions the error branch returns after logging; in the early
revision the error leaves the data null, so the null guard returns. -/
theorem claim_C9 (fuel : Nat) (env : Env) (s : StoreState) (message : String)
    (hq : env.query = .err message) :
    runIndex fuel env = some [] ∧ runEarly fuel env = some []
    ∧ runLate fuel env = some [] ∧ applyEffects s [] = s := by
  refine ⟨?_, ?_, ?_, rfl⟩ <;> simp [runIndex, runEarly, runLate, hq]

theorem claim_C9_witness :
    runIndex 0 envE9 = some [] ∧ runEarly 0 envE9 = some []
    ∧ runLate 0 envE9 = some [] ∧ applyEffects ⟨[tE], [], []⟩ [] = ⟨[tE], [], []⟩ :=
  claim_C9 0 envE9 ⟨[tE], [], []⟩ "connection reset" rfl

/-- C5: for every trigger record and every pair of crawled text blobs, the
built prompt contains, verbatim as substrings, the investor name, the
investor site URL, the company URL, the JSON-serialized supplemental
links, the context string, and both crawled text blobs, the investor blob
directly under the "## Investor Pages" heading and the company blob
directly under the "## Company Pages" heading. -/
theorem claim_C5 (t : Trigger) (investorText companyText : String) :
    strContains (buildPrompt t investorText companyText) t.investor_name
    ∧ strContains (buildPrompt t investorText companyText) t.investor_site
    ∧ strContains (buildPrompt t investorText companyText) t.company_url
    ∧ strContains (buildPrompt t investorText companyText)
        (Json.stringify t.supplemental_links)
    ∧ strContains (buildPrompt t investorText companyText) t.context
    ∧ strContains (buildPrompt t investorText companyText)
        ("## Investor Pages\n" ++ investorText)
    ∧ strContains (buildPrompt t investorText companyText)
        ("## Company Pages\n" ++ companyText) := by
  refine ⟨⟨"\nInvestor Profile Input:\n- PE/VC Firm Name: ",
      "\n- Website: " ++ t.investor_site ++
      "\n- Supplemental Links: " ++ Json.stringify t.supplemental_links ++
      "\n\nTarget Company Input:\n- Company Name: " ++ t.company_name ++
      "\n- Website: " ++ t.company_url ++
      "\n- Assessment Context: " ++ t.context ++
      "\n\nExtracted Content:\n" ++ "## Investor Pages\n" ++ investorText ++
      "\n\n" ++ "## Company Pages\n" ++ companyText ++ "\n", ?_⟩,
    ⟨"\nInvestor Profile Input:\n- PE/VC Firm Name: " ++ t.investor_name ++
      "\n- Website: ",
      "\n- Supplemental Links: " ++ Json.stringify t.supplemental_links ++
      "\n\nTarget Company Input:\n- Company Name: " ++ t.company_name ++
      "\n- Website: " ++ t.company_url ++
      "\n- Assessment Context: " ++ t.context ++
      "\n\nExtracted Content:\n" ++ "## Investor Pages\n" ++ investorText ++
      "\n\n" ++ "## Company Pages\n" ++ companyText ++ "\n", ?_⟩,
    ⟨"\nInvestor Profile Input:\n- PE/VC Firm Name: " ++ t.investor_name ++
      "\n- Website: " ++ t.investor_site ++
      "\n- Supplemental Links: " ++ Json.stringify t.supplemental_links ++
      "\n\nTarget Company Input:\n- Company Name: " ++ t.company_name ++
      "\n- Website: ",
      "\n- Assessment Context: " ++ t.context ++
      "\n\nExtracted Content:\n" ++ "## Investor Pages\n" ++ investorText ++
      "\n\n" ++ "## Company Pages\n" ++ companyText ++ "\n", ?_⟩,
    ⟨"\nInvestor Profile Input:\n- PE/VC Firm Name: " ++ t.investor_name ++
      "\n- Website: " ++ t.investor_site ++
      "\n- Supplemental Links: ",
      "\n\nTarget Company Input:\n- Company Name: " ++ t.company_name ++
      "\n- Website: " ++ t.company_url ++
      "\n- Assessment Context: " ++ t.context ++
      "\n\nExtracted Content:\n" ++ "## Investor Pages\n" ++ investorText ++
      "\n\n" ++ "## Company Pages\n" ++ companyText ++ "\n", ?_⟩,
    ⟨"\nInvestor Profile Input:\n- PE/VC Firm Name: " ++ t.investor_name ++
      "\n- Website: " ++ t.investor_site ++
      "\n- Supplemental Links: " ++ Json.stringify t.supplemental_links ++
      "\n\nTarget Company Input:\n- Company Name: " ++ t.company_name ++
      "\n- Website: " ++ t.company_url ++
      "\n- Assessment Context: ",
      "\n\nExtracted Content:\n" ++ "## Investor Pages\n" ++ investorText ++
      "\n\n" ++ "## Company Pages\n" ++ companyText ++ "\n", ?_⟩,
    ⟨"\nInvestor Profile Input:\n- PE/VC Firm Name: " ++ t.investor_name ++
      "\n- Website: " ++ t.investor_site ++
      "\n- Supplemental Links: " ++ Json.stringify t.supplemental_links ++
      "\n\nTarget Company Input:\n- Company Name: " ++ t.company_name ++
      "\n- Website: " ++ t.company_url ++
      "\n- Assessment Context: " ++ t.context ++
      "\n\nExtracted Content:\n",
      "\n\n" ++ "## Company Pages\n" ++ companyText ++ "\n", ?_⟩,
    ⟨"\nInvestor Profile Input:\n- PE/VC Firm Name: " ++ t.investor_name ++
      "\n- Website: " ++ t.investor_site ++
      "\n- Supplemental Links: " ++ Json.stringify t.supplemental_links ++
      "\n\nTarget Company Input:\n- Company Name: " ++ t.company_name ++
      "\n- Website: " ++ t.company_url ++
      "\n- Assessment Context: " ++ t.context ++
      "\n\nExtracted Content:\n" ++ "## Investor Pages\n" ++ investorText ++
      "\n\n",
      "\n", ?_⟩⟩ <;>
  simp only [buildPrompt, String.append_assoc]

theorem pollLoopFrom_eq_none (statuses : Nat → String)
    (h : ∀ n, statuses n ≠ "completed") :
    ∀ fuel i, pollLoopFrom fuel statuses i = none := by
  intro fuel
  induction fuel with
  | zero => intro i; rfl
  | succ fuel ih => intro i; simp [pollLoopFrom, h i, ih]

theorem pollLoopFrom_isSome (statuses : Nat → String) :
    ∀ fuel i, (∃ j, j < fuel ∧ statuses (i + j) = "completed") →
      ∃ m, pollLoopFrom fuel statuses i = some m := by
  intro fuel
  induction fuel with
  | zero => intro i ⟨j, hj, _⟩; omega
  | succ fuel ih =>
    intro i ⟨j, hj, hcj⟩
    by_cases hi : statuses i = "completed"
    · exact ⟨i, by simp [pollLoopFrom, hi]⟩
    · have hj0 : j ≠ 0 := by
        intro h0
        rw [h0, Nat.add_zero] at hcj
        exact hi hcj
      obtain ⟨m, hm⟩ := ih (i + 1) ⟨j - 1, by omega, by
        have : i + 1 + (j - 1) = i + j := by omega
        rw [this]; exact hcj⟩
      exact ⟨m, by simp [pollLoopFrom, hi, hm]⟩

/-- C6: the assistant-run polling loop terminates exactly when some poll
returns the status "completed": if some poll returns "completed" then
some fuel bound suffices for the loop to finish, and if no poll ever
returns "completed" (including runs that stay failed, cancelled or
expired forever) then the loop is still spinning under every fuel
bound. -/
theorem claim_C6 (statuses : Nat → String) :
    ((∃ n, statuses n = "completed") →
      ∃ fuel j, pollLoop fuel statuses = some j)
    ∧ ((∀ n, statuses n ≠ "completed") →
      ∀ fuel, pollLoop fuel statuses = none) := by
  constructor
  · intro ⟨n, hn⟩
    obtain ⟨m, hm⟩ := pollLoopFrom_isSome statuses (n + 1) 0
      ⟨n, Nat.lt_succ_self n, by simpa using hn⟩
    exact ⟨n + 1, m, hm⟩
  · intro h fuel
    exact pollLoopFrom_eq_none statuses h fuel 0

theorem claim_C6_witness :
    (∃ fuel j, pollLoop fuel (fun _ => "completed") = some j)
    ∧ (∀ fuel, pollLoop fuel (fun _ => "failed") = none) :=
  ⟨(claim_C6 (fun _ => "completed")).1 ⟨0, rfl⟩,
   (claim_C6 (fun _ => "failed")).2 (fun _ => by decide)⟩

/-- C1 counterexample: in the early revision a cycle with exactly one
queued trigger and all external calls succeeding performs its writes in
the order report insert, status update, audit insert, not in the claimed
order report insert, audit insert, status update. -/
theorem claim_C1_counterexample :
    (runEarly 1 envE).map writeKinds =
      some [WriteKind.report, WriteKind.status, WriteKind.audit]
    ∧ [WriteKind.report, WriteKind.status, WriteKind.audit] ≠
        [WriteKind.report, WriteKind.audit, WriteKind.status] :=
  ⟨rfl, by decide⟩

/-- C1 amended: in every cycle in which the store returns exactly one
queued trigger and every external call succeeds, exactly one
AssessmentReport and exactly one AuditLogEntry are written and the
trigger status is updated to "complete"; in the index and late revisions
the three writes occur in the order report insert, audit insert, status
update, while in the early revision they occur in the order report
insert, status update, audit insert. -/
theorem claim_C1 (fuel k : Nat) (env : Env) (t : Trigger)
    (investorText companyText : String)
    (rs : List AssessmentReport) (auds : List AuditLogEntry)
    (hq : env.query = .ok (some [t]))
    (hci : crawlStrict (env.crawlResp t.investor_site) = .ok investorText)
    (hcc : crawlStrict (env.crawlResp t.company_url) = .ok companyText)
    (hpoll : pollLoop fuel env.statuses = some k)
    (hw1 : env.reportInsertThrows = false)
    (hw2 : env.auditInsertThrows = false)
    (hw3 : env.statusUpdateThrows = false) :
    (∃ tr, runIndex fuel env = some tr
      ∧ writeKinds tr = [.report, .audit, .status]
      ∧ Effect.updateTriggerStatus t.id "complete" ∈ tr
      ∧ applyEffects ⟨[t], rs, auds⟩ tr =
          ⟨[{ t with status := "complete" }],
           rs ++ [mkReport t env.assistantText], auds ++ [mkAuditIndex t]⟩)
    ∧ (∃ tr, runLate fuel env = some tr
      ∧ writeKinds tr = [.report, .audit, .status]
      ∧ Effect.updateTriggerStatus t.id "complete" ∈ tr
      ∧ applyEffects ⟨[t], rs, auds⟩ tr =
          ⟨[{ t with status := "complete" }],
           rs ++ [mkReport t env.assistantText], auds ++ [mkAuditLate t]⟩)
    ∧ (∃ tr, runEarly fuel env = some tr
      ∧ writeKinds tr = [.report, .status, .audit]
      ∧ Effect.updateTriggerStatus t.id "complete" ∈ tr
      ∧ applyEffects ⟨[t], rs, auds⟩ tr =
          ⟨[{ t with status := "complete" }],
           rs ++ [mkReport t env.assistantText], auds ++ [mkAuditEarly t]⟩) := by
  refine ⟨?_, ?_, ?_⟩
  · refine ⟨[.crawlRequest (crawlBodyIndex t.investor_site),
        .crawlRequest (crawlBodyIndex t.company_url), .threadCreate,
        .messageCreate (buildPrompt t investorText companyText), .runCreate] ++
      List.replicate (k + 1) .runRetrieve ++
      [.insertReport (mkReport t env.assistantText), .insertAudit (mkAuditIndex t),
       .updateTriggerStatus t.id "complete"], ?_, ?_, ?_, ?_⟩
    · simp [runIndex, hq, hci, hcc, hpoll, hw1, hw2, hw3]
    · simp [writeKinds, List.filterMap_append, List.filterMap_cons, writeKind,
        filterMap_writeKind_replicate]
    · simp [List.mem_append]
    · simp [applyEffects, List.foldl_append, foldl_applyEffect_replicate, applyEffect]
  · refine ⟨[.crawlRequest (crawlBodyLate t.investor_site),
        .crawlRequest (crawlBodyLate t.company_url), .threadCreate,
        .messageCreate (buildPrompt t (crawlLate (env.crawlResp t.investor_site))
          (crawlLate (env.crawlResp t.company_url))), .runCreate] ++
      List.replicate (k + 1) .runRetrieve ++
      [.insertReport (mkReport t env.assistantText), .insertAudit (mkAuditLate t),
       .updateTriggerStatus t.id "complete"], ?_, ?_, ?_, ?_⟩
    · simp [runLate, hq, hpoll, hw1, hw2, hw3]
    · simp [writeKinds, List.filterMap_append, List.filterMap_cons, writeKind,
        filterMap_writeKind_replicate]
    · simp [List.mem_append]
    · simp [applyEffects, List.foldl_append, foldl_applyEffect_replicate, applyEffect]
  · refine ⟨[.crawlRequest (crawlBodyEarly t.investor_site),
        .crawlRequest (crawlBodyEarly t.company_url), .threadCreate,
        .messageCreate (buildPrompt t investorText companyText), .runCreate] ++
      List.replicate (k + 1) .runRetrieve ++
      [.insertReport (mkReport t env.assistantText),
       .updateTriggerStatus t.id "complete", .insertAudit (mkAuditEarly t)], ?_, ?_, ?_, ?_⟩
    · simp [runEarly, hq, hci, hcc, hpoll, hw1, hw2, hw3]
    · simp [writeKinds, List.filterMap_append, List.filterMap_cons, writeKind,
        filterMap_writeKind_replicate]
    · simp [List.mem_append]
    · simp [applyEffects, List.foldl_append, foldl_applyEffect_replicate, applyEffect]

theorem claim_C1_witness :
    (∃ tr, runIndex 1 envE = some tr
      ∧ writeKinds tr = [.report, .audit, .status]
      ∧ Effect.updateTriggerStatus tE.id "complete" ∈ tr
      ∧ applyEffects ⟨[tE], [], []⟩ tr =
          ⟨[{ tE with status := "complete" }],
           [] ++ [mkReport tE envE.assistantText], [] ++ [mkAuditIndex tE]⟩)
    ∧ (∃ tr, runLate 1 envE = some tr
      ∧ writeKinds tr = [.report, .audit, .status]
      ∧ Effect.updateTriggerStatus tE.id "complete" ∈ tr
      ∧ applyEffects ⟨[tE], [], []⟩ tr =
          ⟨[{ tE with status := "complete" }],
           [] ++ [mkReport tE envE.assistantText], [] ++ [mkAuditLate tE]⟩)
    ∧ (∃ tr, runEarly 1 envE = some tr
      ∧ writeKinds tr = [.report, .status, .audit]
      ∧ Effect.updateTriggerStatus tE.id "complete" ∈ tr
      ∧ applyEffects ⟨[tE], [], []⟩ tr =
          ⟨[{ tE with status := "complete" }],
           [] ++ [mkReport tE envE.assistantText], [] ++ [mkAuditEarly tE]⟩) :=
  claim_C1 1 0 envE tE "" "" [] [] rfl rfl rfl rfl rfl rfl rfl

/-- C7: in every cycle of the index or late revision in which the write
phase fails after the AssessmentReport insert but before the trigger
status update, the report insert is in the trace, no status update is, the
cycle ends with the trigger still "queued" and a report row inserted, and
the select of the next poll returns the same trigger again. -/
theorem claim_C7 (fuel k : Nat) (env : Env) (t : Trigger)
    (investorText companyText : String)
    (rs : List AssessmentReport) (auds : List AuditLogEntry)
    (hstat : t.status = "queued")
    (hq : env.query = .ok (some [t]))
    (hci : crawlStrict (env.crawlResp t.investor_site) = .ok investorText)
    (hcc : crawlStrict (env.crawlResp t.company_url) = .ok companyText)
    (hpoll : pollLoop fuel env.statuses = some k)
    (hw1 : env.reportInsertThrows = false)
    (hw2 : env.auditInsertThrows = true) :
    (∃ tr, runIndex fuel env = some tr
      ∧ Effect.insertReport (mkReport t env.assistantText) ∈ tr
      ∧ (∀ i st, Effect.updateTriggerStatus i st ∉ tr)
      ∧ applyEffects ⟨[t], rs, auds⟩ tr =
          ⟨[t], rs ++ [mkReport t env.assistantText], auds⟩
      ∧ selectQueued (applyEffects ⟨[t], rs, auds⟩ tr) = [t])
    ∧ (∃ tr, runLate fuel env = some tr
      ∧ Effect.insertReport (mkReport t env.assistantText) ∈ tr
      ∧ (∀ i st, Effect.updateTriggerStatus i st ∉ tr)
      ∧ applyEffects ⟨[t], rs, auds⟩ tr =
          ⟨[t], rs ++ [mkReport t env.assistantText], auds⟩
      ∧ selectQueued (applyEffects ⟨[t], rs, auds⟩ tr) = [t]) := by
  refine ⟨?_, ?_⟩
  · refine ⟨[.crawlRequest (crawlBodyIndex t.investor_site),
        .crawlRequest (crawlBodyIndex t.company_url), .threadCreate,
        .messageCreate (buildPrompt t investorText companyText), .runCreate] ++
      List.replicate (k + 1) .runRetrieve ++
      [.insertReport (mkReport t env.assistantText)], ?_, ?_, ?_, ?_, ?_⟩
    · simp [runIndex, hq, hci, hcc, hpoll, hw1, hw2]
    · simp [List.mem_append]
    · simp [List.mem_append, List.mem_replicate]
    · simp [applyEffects, List.foldl_append, foldl_applyEffect_replicate, applyEffect]
    · simp [applyEffects, List.foldl_append, foldl_applyEffect_replicate, applyEffect,
        selectQueued, hstat]
  · refine ⟨[.crawlRequest (crawlBodyLate t.investor_site),
        .crawlRequest (crawlBodyLate t.company_url), .threadCreate,
        .messageCreate (buildPrompt t (crawlLate (env.crawlResp t.investor_site))
          (crawlLate (env.crawlResp t.company_url))), .runCreate] ++
      List.replicate (k + 1) .runRetrieve ++
      [.insertReport (mkReport t env.assistantText)], ?_, ?_, ?_, ?_, ?_⟩
    · simp [runLate, hq, hpoll, hw1, hw2]
    · simp [List.mem_append]
    · simp [List.mem_append, List.mem_replicate]
    · simp [applyEffects, List.foldl_append, foldl_applyEffect_replicate, applyEffect]
    · simp [applyEffects, List.foldl_append, foldl_applyEffect_replicate, applyEffect,
        selectQueued, hstat]

theorem claim_C7_witness :
    (∃ tr, runIndex 1 envE7 = some tr
      ∧ Effect.insertReport (mkReport tE envE7.assistantText) ∈ tr
      ∧ (∀ i st, Effect.updateTriggerStatus i st ∉ tr)
      ∧ applyEffects ⟨[tE], [], []⟩ tr =
          ⟨[tE], [] ++ [mkReport tE envE7.assistantText], []⟩
      ∧ selectQueued (applyEffects ⟨[tE], [], []⟩ tr) = [tE])
    ∧ (∃ tr, runLate 1 envE7 = some tr
      ∧ Effect.insertReport (mkReport tE envE7.assistantText) ∈ tr
      ∧ (∀ i st, Effect.updateTriggerStatus i st ∉ tr)
      ∧ applyEffects ⟨[tE], [], []⟩ tr =
          ⟨[tE], [] ++ [mkReport tE envE7.assistantText], []⟩
      ∧ selectQueued (applyEffects ⟨[tE], [], []⟩ tr) = [tE]) :=
  claim_C7 1 0 envE7 tE "" "" [] [] rfl rfl rfl rfl rfl rfl rfl

set_option maxHeartbeats 2000000 in
theorem runIndex_mem (fuel : Nat) (env : Env) (tr : List Effect) (e : Effect)
    (h : runIndex fuel env = some tr) (he : e ∈ tr) :
    ∃ t rest, env.query = .ok (some (t :: rest)) ∧
      (e = .crawlRequest (crawlBodyIndex t.investor_site)
       ∨ e = .crawlRequest (crawlBodyIndex t.company_url)
       ∨ e = .threadCreate
       ∨ (∃ p, e = .messageCreate p)
       ∨ e = .runCreate
       ∨ e = .runRetrieve
       ∨ e = .insertReport (mkReport t env.assistantText)
       ∨ e = .insertAudit (mkAuditIndex t)
       ∨ e = .updateTriggerStatus t.id "complete") := by
  unfold runIndex at h
  rcases hq : env.query with m | d
  · rw [hq] at h; simp at h; subst h; simp at he
  · rcases d with _ | (_ | ⟨t, rest⟩)
    · rw [hq] at h; simp at h; subst h; simp at he
    · rw [hq] at h; simp at h; subst h; simp at he
    · rw [hq] at h
      simp only [] at h
      refine ⟨t, rest, rfl, ?_⟩
      rcases hc1 : crawlStrict (env.crawlResp t.investor_site) with e1 | itext <;>
        rw [hc1] at h
      · simp at h; subst h; simp at he; tauto
      · rcases hc2 : crawlStrict (env.crawlResp t.company_url) with e2 | ctext <;>
          rw [hc2] at h
        · simp at h; subst h; simp at he; tauto
        · rcases hp : pollLoop fuel env.statuses with _ | k <;> rw [hp] at h
          · simp at h
          · simp at h
            subst h
            cases hw1 : env.reportInsertThrows with
            | true => simp [hw1] at he; aesop
            | false =>
              cases hw2 : env.auditInsertThrows with
              | true => simp [hw1, hw2] at he; aesop
              | false =>
                cases hw3 : env.statusUpdateThrows with
                | true => simp [hw1, hw2, hw3] at he; aesop
                | false => simp [hw1, hw2, hw3] at he; aesop

set_option maxHeartbeats 2000000 in
theorem runEarly_mem (fuel : Nat) (env : Env) (tr : List Effect) (e : Effect)
    (h : runEarly fuel env = some tr) (he : e ∈ tr) :
    ∃ t rest, env.query = .ok (some (t :: rest)) ∧
      (e = .crawlRequest (crawlBodyEarly t.investor_site)
       ∨ e = .crawlRequest (crawlBodyEarly t.company_url)
       ∨ e = .threadCreate
       ∨ (∃ p, e = .messageCreate p)
       ∨ e = .runCreate
       ∨ e = .runRetrieve
       ∨ e = .insertReport (mkReport t env.assistantText)
       ∨ e = .insertAudit (mkAuditEarly t)
       ∨ e = .updateTriggerStatus t.id "complete") := by
  unfold runEarly at h
  rcases hq : env.query with m | d
  · rw [hq] at h; simp at h; subst h; simp at he
  · rcases d with _ | (_ | ⟨t, rest⟩)
    · rw [hq] at h; simp at h; subst h; simp at he
    · rw [hq] at h; simp at h; subst h; simp at he
    · rw [hq] at h
      simp only [] at h
      refine ⟨t, rest, rfl, ?_⟩
      rcases hc1 : crawlStrict (env.crawlResp t.investor_site) with e1 | itext <;>
        rw [hc1] at h
      · simp at h; subst h; simp at he; tauto
      · rcases hc2 : crawlStrict (env.crawlResp t.company_url) with e2 | ctext <;>
          rw [hc2] at h
        · simp at h; subst h; simp at he; tauto
        · rcases hp : pollLoop fuel env.statuses with _ | k <;> rw [hp] at h
          · simp at h
          · simp at h
            subst h
            cases hw1 : env.reportInsertThrows with
            | true => simp [hw1] at he; aesop
            | false =>
              cases hw3 : env.statusUpdateThrows with
              | true => simp [hw1, hw3] at he; aesop
              | false =>
                cases hw2 : env.auditInsertThrows with
                | true => simp [hw1, hw2, hw3] at he; aesop
                | false => simp [hw1, hw2, hw3] at he; aesop

set_option maxHeartbeats 2000000 in
theorem runLate_mem (fuel : Nat) (env : Env) (tr : List Effect) (e : Effect)
    (h : runLate fuel env = some tr) (he : e ∈ tr) :
    ∃ t rest, env.query = .ok (some (t :: rest)) ∧
      (e = .crawlRequest (crawlBodyLate t.investor_site)
       ∨ e = .crawlRequest (crawlBodyLate t.company_url)
       ∨ e = .threadCreate
       ∨ (∃ p, e = .messageCreate p)
       ∨ e = .runCreate
       ∨ e = .runRetrieve
       ∨ e = .insertReport (mkReport t env.assistantText)
       ∨ e = .insertAudit (mkAuditLate t)
       ∨ e = .updateTriggerStatus t.id "complete") := by
  unfold runLate at h
  rcases hq : env.query with m | d
  · rw [hq] at h; simp at h; subst h; simp at he
  · rcases d with _ | (_ | ⟨t, rest⟩)
    · rw [hq] at h; simp at h; subst h; simp at he
    · rw [hq] at h; simp at h; subst h; simp at he
    · rw [hq] at h
      simp only [] at h
      refine ⟨t, rest, rfl, ?_⟩
      rcases hp : pollLoop fuel env.statuses with _ | k <;> rw [hp] at h
      · simp at h
      · simp at h
        subst h
        cases hw1 : env.reportInsertThrows with
        | true => simp [hw1] at he; aesop
        | false =>
          cases hw2 : env.auditInsertThrows with
          | true => simp [hw1, hw2] at he; aesop
          | false =>
            cases hw3 : env.statusUpdateThrows with
            | true => simp [hw1, hw2, hw3] at he; aesop
            | false => simp [hw1, hw2, hw3] at he; aesop

/-- C8: every crawl request a cycle of any revision sends carries the
fixed parameters maxPages 20, depth 2, crawlJs true and htmlOnly false,
together with the target URL, which is the investor site or the company
URL of the selected trigger: in the index and late revisions as a
one-element urls array, in the early revision as a single url field. -/
theorem claim_C8 (fuel : Nat) (env : Env) (tr : List Effect) (b : CrawlBody) :
    (runIndex fuel env = some tr → Effect.crawlRequest b ∈ tr →
      b.maxPages = 20 ∧ b.depth = 2 ∧ b.crawlJs = true ∧ b.htmlOnly = false
      ∧ ∃ t rest, env.query = .ok (some (t :: rest))
        ∧ (b.target = .list [t.investor_site] ∨ b.target = .list [t.company_url]))
    ∧ (runLate fuel env = some tr → Effect.crawlRequest b ∈ tr →
      b.maxPages = 20 ∧ b.depth = 2 ∧ b.crawlJs = true ∧ b.htmlOnly = false
      ∧ ∃ t rest, env.query = .ok (some (t :: rest))
        ∧ (b.target = .list [t.investor_site] ∨ b.target = .list [t.company_url]))
    ∧ (runEarly fuel env = some tr → Effect.crawlRequest b ∈ tr →
      b.maxPages = 20 ∧ b.depth = 2 ∧ b.crawlJs = true ∧ b.htmlOnly = false
      ∧ ∃ t rest, env.query = .ok (some (t :: rest))
        ∧ (b.target = .single t.investor_site ∨ b.target = .single t.company_url)) := by
  refine ⟨?_, ?_, ?_⟩ <;> intro h hm
  · obtain ⟨t, rest, hq, hd⟩ := runIndex_mem fuel env tr _ h hm
    rcases hd with h1 | h1 | h1 | ⟨p, h1⟩ | h1 | h1 | h1 | h1 | h1
    · injection h1 with h2; subst h2
      exact ⟨rfl, rfl, rfl, rfl, t, rest, hq, Or.inl rfl⟩
    · injection h1 with h2; subst h2
      exact ⟨rfl, rfl, rfl, rfl, t, rest, hq, Or.inr rfl⟩
    all_goals exact absurd h1 (by simp)
  · obtain ⟨t, rest, hq, hd⟩ := runLate_mem fuel env tr _ h hm
    rcases hd with h1 | h1 | h1 | ⟨p, h1⟩ | h1 | h1 | h1 | h1 | h1
    · injection h1 with h2; subst h2
      exact ⟨rfl, rfl, rfl, rfl, t, rest, hq, Or.inl rfl⟩
    · injection h1 with h2; subst h2
      exact ⟨rfl, rfl, rfl, rfl, t, rest, hq, Or.inr rfl⟩
    all_goals exact absurd h1 (by simp)
  · obtain ⟨t, rest, hq, hd⟩ := runEarly_mem fuel env tr _ h hm
    rcases hd with h1 | h1 | h1 | ⟨p, h1⟩ | h1 | h1 | h1 | h1 | h1
    · injection h1 with h2; subst h2
      exact ⟨rfl, rfl, rfl, rfl, t, rest, hq, Or.inl rfl⟩
    · injection h1 with h2; subst h2
      exact ⟨rfl, rfl, rfl, rfl, t, rest, hq, Or.inr rfl⟩
    all_goals exact absurd h1 (by simp)

theorem claim_C8_witness :
    ((crawlBodyIndex tE.investor_site).maxPages = 20
      ∧ (crawlBodyIndex tE.investor_site).depth = 2
      ∧ (crawlBodyIndex tE.investor_site).crawlJs = true
      ∧ (crawlBodyIndex tE.investor_site).htmlOnly = false
      ∧ ∃ t rest, envE8.query = .ok (some (t :: rest))
        ∧ ((crawlBodyIndex tE.investor_site).target = .list [t.investor_site]
           ∨ (crawlBodyIndex tE.investor_site).target = .list [t.company_url]))
    ∧ ((crawlBodyLate tE.investor_site).maxPages = 20
      ∧ (crawlBodyLate tE.investor_site).depth = 2
      ∧ (crawlBodyLate tE.investor_site).crawlJs = true
      ∧ (crawlBodyLate tE.investor_site).htmlOnly = false
      ∧ ∃ t rest, envE8.query = .ok (some (t :: rest))
        ∧ ((crawlBodyLate tE.investor_site).target = .list [t.investor_site]
           ∨ (crawlBodyLate tE.investor_site).target = .list [t.company_url]))
    ∧ ((crawlBodyEarly tE.investor_site).maxPages = 20
      ∧ (crawlBodyEarly tE.investor_site).depth = 2
      ∧ (crawlBodyEarly tE.investor_site).crawlJs = true
      ∧ (crawlBodyEarly tE.investor_site).htmlOnly = false
      ∧ ∃ t rest, envE8.query = .ok (some (t :: rest))
        ∧ ((crawlBodyEarly tE.investor_site).target = .single t.investor_site
           ∨ (crawlBodyEarly tE.investor_site).target = .single t.company_url)) :=
  ⟨(claim_C8 1 envE8 ((runIndex 1 envE8).getD []) (crawlBodyIndex tE.investor_site)).1
      rfl (by decide),
   (claim_C8 1 envE8 ((runLate 1 envE8).getD []) (crawlBodyLate tE.investor_site)).2.1
      rfl (by decide),
   (claim_C8 1 envE8 ((runEarly 1 envE8).getD []) (crawlBodyEarly tE.investor_site)).2.2
      rfl (by decide)⟩

/-- C10: every AuditLogEntry any revision writes for a processed trigger
has action "Assessment Complete", confidence_score 90, a fixed details
string (the constant "Report stored" in the index and early revisions and
the constant "Assessment stored successfully" in the late revision), and
source_url equal to the company_url of the processed trigger, never the
investor site. -/
theorem claim_C10 (fuel : Nat) (env : Env) (tr : List Effect)
    (a : AuditLogEntry) (t : Trigger) (rest : List Trigger)
    (hq : env.query = .ok (some (t :: rest)))
    (h : runIndex fuel env = some tr ∨ runEarly fuel env = some tr
      ∨ runLate fuel env = some tr)
    (ha : Effect.insertAudit a ∈ tr) :
    a.action = "Assessment Complete" ∧ a.confidence_score = 90
    ∧ a.source_url = t.company_url
    ∧ (a.details = "Report stored"
       ∨ a.details = "Assessment stored successfully") := by
  rcases h with h | h | h
  · obtain ⟨t2, rest2, hq2, hd⟩ := runIndex_mem fuel env tr _ h ha
    rw [hq] at hq2
    simp only [QueryResult.ok.injEq, Option.some.injEq, List.cons.injEq] at hq2
    obtain ⟨ht, _⟩ := hq2
    subst ht
    rcases hd with h1 | h1 | h1 | ⟨p, h1⟩ | h1 | h1 | h1 | h1 | h1
    · exact absurd h1 (by simp)
    · exact absurd h1 (by simp)
    · exact absurd h1 (by simp)
    · exact absurd h1 (by simp)
    · exact absurd h1 (by simp)
    · exact absurd h1 (by simp)
    · exact absurd h1 (by simp)
    · injection h1 with h2; subst h2; exact ⟨rfl, rfl, rfl, Or.inl rfl⟩
    · exact absurd h1 (by simp)
  · obtain ⟨t2, rest2, hq2, hd⟩ := runEarly_mem fuel env tr _ h ha
    rw [hq] at hq2
    simp only [QueryResult.ok.injEq, Option.some.injEq, List.cons.injEq] at hq2
    obtain ⟨ht, _⟩ := hq2
    subst ht
    rcases hd with h1 | h1 | h1 | ⟨p, h1⟩ | h1 | h1 | h1 | h1 | h1
    · exact absurd h1 (by simp)
    · exact absurd h1 (by simp)
    · exact absurd h1 (by simp)
    · exact absurd h1 (by simp)
    · exact absurd h1 (by simp)
    · exact absurd h1 (by simp)
    · exact absurd h1 (by simp)
    · injection h1 with h2; subst h2; exact ⟨rfl, rfl, rfl, Or.inl rfl⟩
    · exact absurd h1 (by simp)
  · obtain ⟨t2, rest2, hq2, hd⟩ := runLate_mem fuel env tr _ h ha
    rw [hq] at hq2
    simp only [QueryResult.ok.injEq, Option.some.injEq, List.cons.injEq] at hq2
    obtain ⟨ht, _⟩ := hq2
    subst ht
    rcases hd with h1 | h1 | h1 | ⟨p, h1⟩ | h1 | h1 | h1 | h1 | h1
    · exact absurd h1 (by simp)
    · exact absurd h1 (by simp)
    · exact absurd h1 (by simp)
    · exact absurd h1 (by simp)
    · exact absurd h1 (by simp)
    · exact absurd h1 (by simp)
    · exact absurd h1 (by simp)
    · injection h1 with h2; subst h2; exact ⟨rfl, rfl, rfl, Or.inr rfl⟩
    · exact absurd h1 (by simp)

theorem claim_C10_witness :
    (mkAuditIndex tE).action = "Assessment Complete"
    ∧ (mkAuditIndex tE).confidence_score = 90
    ∧ (mkAuditIndex tE).source_url = tE.company_url
    ∧ ((mkAuditIndex tE).details = "Report stored"
       ∨ (mkAuditIndex tE).details = "Assessment stored successfully") :=
  claim_C10 1 envE ((runIndex 1 envE).getD []) (mkAuditIndex tE) tE [] rfl
    (Or.inl rfl) (by decide)

end AssessOrch
